import Mathlib

/-!
# Verification of the Bluetooth HFP call-audio subsystem (`src/client/src/bluetooth.rs`)

A shallow embedding of the Linux implementation in `mod inner` of
`bluetooth.rs`.  External effects (running `pactl` / `wpctl` / `pw-loopback`,
sleeping, polling) are modelled by an environment oracle `Env` that fixes the
outcome of every external call, a `World` recording the externally visible
state (active card profile, the WirePlumber autoswitch setting, liveness of
the two loopback processes), and an ordered `Effect` trace.  Every function
below mirrors one Rust function of the source, with the same name and the
same control flow; fallible Rust functions returning `Result<T, String>`
become `Except String T`.
-/

set_option autoImplicit false

deriving instance DecidableEq for Except

namespace PhoneConnect

/-- Rust `str::starts_with`, as a structural check on the character lists
(`String.startsWith` itself is not kernel-reducible). -/
def strStartsWith (pre s : String) : Bool :=
  pre.data.isPrefixOf s.data

/-- Which HFP codec / mode was activated (Rust `enum HfpCodec`). -/
inductive HfpCodec where
  /-- mSBC — wideband 16 kHz, best quality -/
  | MSbc
  /-- CVSD — narrowband 8 kHz, fallback -/
  | Cvsd
  /-- Phone card in Audio-Gateway mode (the phone itself is the HFP gateway) -/
  | PhoneGateway
deriving DecidableEq

/-- One observable external action performed by the subsystem, in program
order.  `setProfile p ok` is one `pactl set-card-profile` invocation together
with its exit status; `spawnMic` / `spawnSpeaker` are the two `pw-loopback`
spawns; `killMic` / `killSpeaker` are `Child::kill` + `wait`; `waitNodes` /
`waitRunning` are the two `wait_for` polling call sites with their outcome. -/
inductive Effect where
  | disableAutoswitch
  | enableAutoswitch
  | setProfile (profile : String) (ok : Bool)
  | spawnMic (ok : Bool)
  | spawnSpeaker (ok : Bool)
  | killMic
  | killSpeaker
  | sleepMs (ms : Nat)
  | waitNodes (ok : Bool)
  | waitRunning (ok : Bool)
deriving DecidableEq

/-- Outcome oracle for every external call the subsystem can make:
the card's advertised profiles (result of `available_profiles`), the exit
status of `pactl set-card-profile` per profile name (`try_set`), the spawn
outcome of the two `pw-loopback` processes (`none` = spawned, `some e` = OS
error `e`), and the time-indexed truth value of the two polled predicates
(`has_source && has_sink`, `source_is_running && sink_is_running`) at `t`
milliseconds after the poll loop started. -/
structure Env where
  profiles : List String
  setOk : String → Bool
  spawnMicErr : Option String
  spawnSpeakerErr : Option String
  nodesReadyAt : Nat → Bool
  runningAt : Nat → Bool

/-- Externally visible state of the machine. -/
structure World where
  /-- Active card profile, as set by the last successful `set-card-profile`. -/
  activeProfile : Option String
  /-- WirePlumber `bluetooth.autoswitch-to-headset-profile` setting. -/
  autoswitchEnabled : Bool
  /-- The mic-loopback OS process is alive. -/
  micAlive : Bool
  /-- The speaker-loopback OS process is alive. -/
  speakerAlive : Bool
deriving DecidableEq

/-- World state plus the ordered trace of effects performed so far. -/
structure St where
  world : World
  trace : List Effect
deriving DecidableEq

/-- Initial state: autoswitch enabled, no loopbacks, nothing done yet. -/
def st0 : St :=
  { world := { activeProfile := none, autoswitchEnabled := true,
               micAlive := false, speakerAlive := false },
    trace := [] }

def emit (e : Effect) (s : St) : St :=
  { s with trace := s.trace ++ [e] }

/-- `wpctl settings bluetooth.autoswitch-to-headset-profile false`
(best-effort, exit status ignored by the source). -/
def disable_wp_autoswitch (s : St) : St :=
  emit .disableAutoswitch { s with world := { s.world with autoswitchEnabled := false } }

/-- `wpctl settings bluetooth.autoswitch-to-headset-profile true`. -/
def enable_wp_autoswitch (s : St) : St :=
  emit .enableAutoswitch { s with world := { s.world with autoswitchEnabled := true } }

/-- `pactl set-card-profile <card> <profile>`; success per `Env.setOk`; a
successful call makes `profile` the active profile (Rust `try_set`). -/
def try_set (env : Env) (profile : String) (s : St) : Bool × St :=
  let ok := env.setOk profile
  let w := if ok then { s.world with activeProfile := some profile } else s.world
  (ok, emit (.setProfile profile ok) { s with world := w })

-- ── String helpers (Rust `replace` on a single char, `trim_start_matches`) ──

/-- Rust `s.replace(a, b)` for a single-character pattern: pointwise map. -/
def replaceChar (a b : Char) (s : String) : String :=
  String.mk (s.data.map fun c => if c = a then b else c)

/-- One-step-at-a-time engine for Rust `trim_start_matches`: repeatedly strip
`pat` from the front while it is a prefix.  `fuel` bounds the number of strip
steps; callers pass the string length, which is always enough because each
step removes `pat.length ≥ 1` characters. -/
def trimAux (pat : List Char) : Nat → List Char → List Char
  | 0, s => s
  | fuel + 1, s =>
    if !pat.isEmpty && pat.isPrefixOf s then trimAux pat fuel (s.drop pat.length)
    else s

/-- Rust `s.trim_start_matches(pat)`: all leading repetitions of `pat`
removed. -/
def trimStartAll (pat s : String) : String :=
  String.mk (trimAux pat.data s.data.length s.data)

/-- Convert `XX:XX:XX:XX:XX:XX` (or `XX_XX_…`) to
`bluez_card.XX_XX_XX_XX_XX_XX` (Rust `mac_to_card_name`). -/
def mac_to_card_name (mac : String) : String :=
  "bluez_card." ++ replaceChar ':' '_' mac

/-- Convert a pactl card name back to `AA:BB:CC:DD:EE:FF`
(Rust `card_name_to_mac`). -/
def card_name_to_mac (name : String) : String :=
  replaceChar '_' ':' (trimStartAll "bluez_card." name)

-- ── Polling (Rust `wait_for`) ─────────────────────────────────────────────

/-- Result of `wait_for`, tagged with the elapsed time (ms) at return. -/
inductive WaitResult where
  | ok (t : Nat)
  | timedOut (t : Nat)
deriving DecidableEq

def WaitResult.isOk : WaitResult → Bool
  | .ok _ => true
  | .timedOut _ => false

/-- The loop body of Rust `wait_for`: at elapsed time `t` check the
condition; on failure, if the deadline (`timeout` ms after start) has been
reached return `timedOut`, otherwise sleep 200 ms and retry.  `fuel` bounds
the iteration count; `wait_for` passes enough fuel that the `0` case is never
reached (the source loop exits on its own once `t` passes the deadline). -/
def waitForAux (cond : Nat → Bool) (timeout : Nat) : Nat → Nat → WaitResult
  | 0, t => .timedOut t
  | fuel + 1, t =>
    if cond t then .ok t
    else if timeout ≤ t then .timedOut t
    else waitForAux cond timeout fuel (t + 200)

/-- Rust `wait_for(condition, timeout, …)`: spin-poll `condition` every
200 ms until it holds or `timeout` elapses.  `cond t` is the predicate's
value `t` milliseconds after the loop started. -/
def wait_for (cond : Nat → Bool) (timeout : Nat) : WaitResult :=
  waitForAux cond timeout (timeout / 200 + 2) 0

-- ── Profile switching (Rust `switch_to_hfp`, `switch_to_a2dp`) ────────────

/-- Error text of `switch_to_hfp`'s failure (condensed from the source's
multi-line message; it names the card and lists the available profiles). -/
def noHfpError (card_name : String) (profiles : List String) : String :=
  "Could not switch " ++ card_name ++ " to HFP. Available profiles: "
    ++ String.intercalate ", " profiles

/-- The wideband profile name to try first, by naming family:
PipeWire (`has_cvsd_explicit`) names mSBC `headset-head-unit`, PulseAudio
names it `headset-head-unit-msbc`. -/
def hfp_wide_name (has_cvsd_explicit : Bool) : String :=
  if has_cvsd_explicit then "headset-head-unit" else "headset-head-unit-msbc"

/-- The narrowband (CVSD) fallback profile name, by naming family. -/
def hfp_narrow_name (has_cvsd_explicit : Bool) : String :=
  if has_cvsd_explicit then "headset-head-unit-cvsd" else "headset-head-unit"

/-- Rust `switch_to_hfp`: enumerate profiles, detect the naming family by
the literal presence of `headset-head-unit-cvsd`, then attempt wideband,
narrowband, and finally `audio-gateway`. -/
def switch_to_hfp (env : Env) (card_name : String) (s : St) :
    Except String HfpCodec × St :=
  let profiles := env.profiles
  let has_cvsd_explicit := profiles.any (· == "headset-head-unit-cvsd")
  let has_headset := profiles.any (strStartsWith "headset-head-unit")
  let has_gateway := profiles.any (· == "audio-gateway")
  -- PipeWire : headset-head-unit (mSBC) + headset-head-unit-cvsd (CVSD)
  -- PulseAudio: headset-head-unit-msbc  + headset-head-unit
  let msbc := hfp_wide_name has_cvsd_explicit
  let cvsd := hfp_narrow_name has_cvsd_explicit
  let tryGateway : St → Except String HfpCodec × St := fun s =>
    if has_gateway then
      let r := try_set env "audio-gateway" s
      if r.1 then (.ok .PhoneGateway, r.2)
      else (.error (noHfpError card_name profiles), r.2)
    else (.error (noHfpError card_name profiles), s)
  if has_headset then
    let r1 := try_set env msbc s
    if r1.1 then (.ok .MSbc, r1.2)
    else
      let r2 := try_set env cvsd r1.2
      if r2.1 then (.ok .Cvsd, r2.2)
      else tryGateway r2.2
  else tryGateway s

/-- The source's A2DP restoration priority list (`candidates` in
`switch_to_a2dp`): the stereo-music profile names. -/
def a2dpCandidates : List String :=
  ["a2dp-sink", "a2dp-sink-aac", "a2dp-sink-sbc_xq", "a2dp-sink-sbc"]

/-- Error text of `switch_to_a2dp`'s failure. -/
def noA2dpError (card_name : String) (profiles : List String) : String :=
  "Could not switch " ++ card_name ++ " back to A2DP. Available profiles: "
    ++ String.intercalate ", " profiles

/-- The `for p in &candidates` loop of Rust `switch_to_a2dp`: a candidate is
attempted when the profile list is empty (permissive fallback) or the
candidate is listed; the first successful `try_set` wins. -/
def a2dpLoop (env : Env) (card_name : String) :
    List String → St → Except String Unit × St
  | [], s => (.error (noA2dpError card_name env.profiles), s)
  | p :: rest, s =>
    if env.profiles.isEmpty || env.profiles.any (· == p) then
      let r := try_set env p s
      if r.1 then (.ok (), r.2) else a2dpLoop env card_name rest r.2
    else a2dpLoop env card_name rest s

/-- Rust `switch_to_a2dp`: switch the card back to the best available A2DP
profile. -/
def switch_to_a2dp (env : Env) (card_name : String) (s : St) :
    Except String Unit × St :=
  a2dpLoop env card_name a2dpCandidates s

-- ── HfpSession (Rust `HfpSession`, `HfpSessionInner`) ─────────────────────

/-- Rust `HfpSessionInner`: the two `pw-loopback` child-process handles.
A `Child` handle carries no data we need, so it is modelled as `Unit`;
whether the underlying OS process is alive lives in `World`. -/
structure HfpSessionInner where
  mic_loopback : Option Unit
  speaker_loopback : Option Unit
deriving DecidableEq

/-- Rust `HfpSession`: a live HFP call-audio session.  `inner = none` either
because the codec is `PhoneGateway` (no local SCO channel) or because the
session was already released (`Option::take` in `Drop`). -/
structure HfpSession where
  card_name : String
  codec : HfpCodec
  inner : Option HfpSessionInner
deriving DecidableEq

/-- Rust `kill_child` applied to the mic handle: kill + wait when the handle
is present, then clear the handle.  Returns the cleared handle. -/
def kill_child_mic (child : Option Unit) (s : St) : Option Unit × St :=
  match child with
  | some _ => (none, emit .killMic { s with world := { s.world with micAlive := false } })
  | none => (none, s)

/-- Rust `kill_child` applied to the speaker handle. -/
def kill_child_speaker (child : Option Unit) (s : St) : Option Unit × St :=
  match child with
  | some _ => (none, emit .killSpeaker { s with world := { s.world with speakerAlive := false } })
  | none => (none, s)

/-- Rust `HfpSessionInner::teardown`: kill both loopbacks, pause 200 ms so
PipeWire deregisters the streams, best-effort `switch_to_a2dp` (result
discarded — `let _ =` in the source), then re-enable WP autoswitch. -/
def teardown (env : Env) (inner : HfpSessionInner) (card_name : String) (s : St) : St :=
  let (_, s) := kill_child_mic inner.mic_loopback s
  let (_, s) := kill_child_speaker inner.speaker_loopback s
  let s := emit (.sleepMs 200) s
  let (_, s) := switch_to_a2dp env card_name s
  enable_wp_autoswitch s

/-- Rust `impl Drop for HfpSession`: `if let Some(mut s) = self.inner.take()
{ s.teardown(&self.card_name) }`.  Returns the session with the inner state
taken, so a second invocation is a no-op. -/
def release (env : Env) (sess : HfpSession) (s : St) : HfpSession × St :=
  match sess.inner with
  | some i => ({ sess with inner := none }, teardown env i sess.card_name s)
  | none => (sess, s)

-- ── Activation (Rust `activate_hfp`) ──────────────────────────────────────

/-- Error text of the fatal node-appearance timeout: `wait_for`'s message
plus the `map_err` decoration naming the expected source/sink nodes. -/
def nodesTimeoutError (bt_source bt_sink : String) : String :=
  "HFP audio nodes did not appear in time. Expected: source=" ++ bt_source
    ++ " / sink=" ++ bt_sink

/-- Rust `activate_hfp`: switch to HFP and open the SCO audio socket via two
`pw-loopback` processes.  Mirrors the source's steps and early returns:

1. disable WP autoswitch;
2. `switch_to_hfp` (on error: re-enable autoswitch, return the error);
3. `PhoneGateway` codec: re-enable autoswitch and return a session without
   loopbacks;
4. fatal 4 s wait for the `bluez_input.<MAC>` / `bluez_output.<MAC>` nodes
   (on timeout: return the error — the source's `?`);
5. spawn the mic loopback (on spawn error: return the error);
6. spawn the speaker loopback (on spawn error: return the error);
7. best-effort 4 s wait for both nodes to be RUNNING (timeout only warns);
8. return the session holding both loopback handles. -/
def activate_hfp (env : Env) (card_name : String) (s : St) :
    Except String HfpSession × St :=
  let s := disable_wp_autoswitch s
  match switch_to_hfp env card_name s with
  | (.error e, s) => (.error e, enable_wp_autoswitch s)
  | (.ok codec, s) =>
    if codec = HfpCodec.PhoneGateway then
      let s := enable_wp_autoswitch s
      (.ok { card_name := card_name, codec := codec, inner := none }, s)
    else
      let mac_node := replaceChar '_' ':' (trimStartAll "bluez_card." card_name)
      let bt_source := "bluez_input." ++ mac_node
      let bt_sink := "bluez_output." ++ mac_node
      let nodesOk := (wait_for env.nodesReadyAt 4000).isOk
      let s := emit (.waitNodes nodesOk) s
      if nodesOk then
        match env.spawnMicErr with
        | some e =>
          (.error ("Failed to start mic-loopback: " ++ e), emit (.spawnMic false) s)
        | none =>
          let s := emit (.spawnMic true)
            { s with world := { s.world with micAlive := true } }
          match env.spawnSpeakerErr with
          | some e =>
            (.error ("Failed to start speaker-loopback: " ++ e), emit (.spawnSpeaker false) s)
          | none =>
            let s := emit (.spawnSpeaker true)
              { s with world := { s.world with speakerAlive := true } }
            let bothRunning := (wait_for env.runningAt 4000).isOk
            let s := emit (.waitRunning bothRunning) s
            (.ok { card_name := card_name, codec := codec,
                   inner := some { mic_loopback := some (), speaker_loopback := some () } }, s)
      else
        (.error (nodesTimeoutError bt_source bt_sink), s)

-- ── Helper lemmas: polling loop ───────────────────────────────────────────

/-- A successful poll returns at a check time: the condition holds there,
the time is aligned to the 200 ms grid starting at `t`, and every earlier
grid point saw the condition false (the loop returns as soon as a check
succeeds). -/
theorem waitForAux_ok (cond : Nat → Bool) (timeout : Nat) :
    ∀ (fuel t u : Nat), waitForAux cond timeout fuel t = .ok u →
      cond u = true ∧ t ≤ u ∧ (u - t) % 200 = 0 ∧
        ∀ s, t ≤ s → s < u → (s - t) % 200 = 0 → cond s = false := by
  intro fuel
  induction fuel with
  | zero => intro t u h; simp [waitForAux] at h
  | succ n ih =>
    intro t u h
    unfold waitForAux at h
    by_cases hc : cond t = true
    · rw [if_pos hc] at h
      cases h
      exact ⟨hc, Nat.le_refl _, by simp, fun s hts hst _ => absurd (Nat.lt_of_le_of_lt hts hst) (Nat.lt_irrefl _)⟩
    · rw [if_neg hc] at h
      by_cases hd : timeout ≤ t
      · rw [if_pos hd] at h; cases h
      · rw [if_neg hd] at h
        obtain ⟨h1, h2, h3, h4⟩ := ih (t + 200) u h
        refine ⟨h1, by omega, by omega, ?_⟩
        intro s hts hst hmod
        by_cases hseq : s = t
        · subst hseq; exact Bool.eq_false_iff.mpr hc
        · have hs200 : t + 200 ≤ s := by omega
          exact h4 s hs200 hst (by omega)

/-- When the condition never holds, the poll loop (given enough fuel to
reach its deadline) times out at the first grid point at or past the
deadline: no earlier than `timeout`, no later than `timeout + 199` ms. -/
theorem waitForAux_timedOut (cond : Nat → Bool) (timeout : Nat)
    (hnever : ∀ s, cond s = false) :
    ∀ (fuel t : Nat), timeout < t + 200 * fuel → t ≤ timeout + 199 →
      ∃ u, waitForAux cond timeout fuel t = .timedOut u ∧
        timeout ≤ u ∧ u ≤ timeout + 199 := by
  intro fuel
  induction fuel with
  | zero =>
    intro t hfuel ht
    exact ⟨t, rfl, by omega, ht⟩
  | succ n ih =>
    intro t hfuel ht
    unfold waitForAux
    rw [if_neg (by simp [hnever t])]
    by_cases hd : timeout ≤ t
    · rw [if_pos hd]; exact ⟨t, rfl, hd, ht⟩
    · rw [if_neg hd]
      exact ih (t + 200) (by omega) (by omega)

-- ── Helper lemmas: profile switching ──────────────────────────────────────

/-- `s'` extends `s` purely by `set-card-profile` attempts: the trace grows
by `setProfile` effects only, and the autoswitch setting and the liveness of
the two loopback processes are untouched. -/
def ProfOnly (s s' : St) : Prop :=
  (∃ d, s'.trace = s.trace ++ d ∧ ∀ e ∈ d, ∃ p ok, e = Effect.setProfile p ok)
  ∧ s'.world.autoswitchEnabled = s.world.autoswitchEnabled
  ∧ s'.world.micAlive = s.world.micAlive
  ∧ s'.world.speakerAlive = s.world.speakerAlive

theorem ProfOnly.rfl (s : St) : ProfOnly s s :=
  ⟨⟨[], by simp, by simp⟩, by simp, by simp, by simp⟩

theorem ProfOnly.trans {s1 s2 s3 : St} (h1 : ProfOnly s1 s2) (h2 : ProfOnly s2 s3) :
    ProfOnly s1 s3 := by
  obtain ⟨⟨d1, ht1, hp1⟩, ha1, hm1, hk1⟩ := h1
  obtain ⟨⟨d2, ht2, hp2⟩, ha2, hm2, hk2⟩ := h2
  refine ⟨⟨d1 ++ d2, ?_, ?_⟩, by rw [ha2, ha1], by rw [hm2, hm1], by rw [hk2, hk1]⟩
  · rw [ht2, ht1, List.append_assoc]
  · intro e he
    rcases List.mem_append.mp he with h | h
    exacts [hp1 e h, hp2 e h]

theorem ProfOnly.of_try_set (env : Env) (p : String) (s : St) :
    ProfOnly s (try_set env p s).2 := by
  refine ⟨⟨[Effect.setProfile p (env.setOk p)], by simp [try_set, emit], ?_⟩, ?_, ?_, ?_⟩
  · intro e he; simp at he; exact ⟨p, env.setOk p, he⟩
  all_goals simp only [try_set, emit]; split <;> simp

/-- `switch_to_hfp` only issues profile-set attempts: it never touches the
autoswitch setting nor the loopback processes. -/
theorem switch_to_hfp_profOnly (env : Env) (cn : String) (s : St) :
    ProfOnly s (switch_to_hfp env cn s).2 := by
  have step2 : ∀ p q, ProfOnly s (try_set env q (try_set env p s).2).2 := fun p q =>
    ProfOnly.trans (ProfOnly.of_try_set env p s) (ProfOnly.of_try_set env q (try_set env p s).2)
  have step3 : ∀ p q r, ProfOnly s (try_set env r (try_set env q (try_set env p s).2).2).2 :=
    fun p q r =>
      ProfOnly.trans (step2 p q) (ProfOnly.of_try_set env r (try_set env q (try_set env p s).2).2)
  unfold switch_to_hfp
  dsimp only
  split
  · split
    · exact ProfOnly.of_try_set ..
    · split
      · exact step2 ..
      · split
        · split
          · exact step3 ..
          · exact step3 ..
        · exact step2 ..
  · split
    · split
      · exact ProfOnly.of_try_set ..
      · exact ProfOnly.of_try_set ..
    · exact ProfOnly.rfl _

/-- The condition under which the A2DP loop attempts and succeeds on a
candidate: permissive when the enumeration is empty, otherwise the candidate
must be advertised; in both cases the set operation must succeed. -/
def a2dpGood (env : Env) (p : String) : Bool :=
  (env.profiles.isEmpty || env.profiles.any (· == p)) && env.setOk p

/-- The A2DP loop succeeds exactly on the first candidate satisfying
`a2dpGood`, making it the active profile; with no such candidate it fails
with the no-music-profile error. -/
theorem a2dpLoop_find_spec (env : Env) (cn : String) :
    ∀ (l : List String) (s : St),
      match l.find? (a2dpGood env) with
      | some p =>
        (a2dpLoop env cn l s).1 = .ok () ∧
        (a2dpLoop env cn l s).2.world.activeProfile = some p
      | none => (a2dpLoop env cn l s).1 = .error (noA2dpError cn env.profiles) := by
  intro l
  induction l with
  | nil => intro s; simp [a2dpLoop]
  | cons p rest ih =>
    intro s
    by_cases hc : (env.profiles.isEmpty || env.profiles.any (· == p)) = true
    · by_cases hs : env.setOk p = true
      · have hr : (try_set env p s).1 = true := hs
        have hgood : a2dpGood env p = true := by
          simp only [a2dpGood, hc, hs, Bool.and_self]
        rw [List.find?_cons_of_pos _ hgood]
        have harm : a2dpLoop env cn (p :: rest) s = (Except.ok (), (try_set env p s).2) := by
          simp [a2dpLoop, hc, hr]
        rw [harm]
        exact ⟨rfl, by simp [try_set, emit, hs]⟩
      · have hs' : env.setOk p = false := Bool.not_eq_true _ ▸ hs
        have hr : (try_set env p s).1 = false := hs'
        have hgood : a2dpGood env p = false := by
          simp only [a2dpGood, hs', Bool.and_false]
        rw [List.find?_cons_of_neg _ (by simp [hgood])]
        have harm : a2dpLoop env cn (p :: rest) s = a2dpLoop env cn rest (try_set env p s).2 := by
          simp [a2dpLoop, hc, hr]
        rw [harm]
        exact ih (try_set env p s).2
    · have hc' : (env.profiles.isEmpty || env.profiles.any (· == p)) = false :=
        Bool.not_eq_true _ ▸ hc
      have hgood : a2dpGood env p = false := by
        simp only [a2dpGood, hc', Bool.false_and]
      rw [List.find?_cons_of_neg _ (by simp [hgood])]
      have harm : a2dpLoop env cn (p :: rest) s = a2dpLoop env cn rest s := by
        simp [a2dpLoop, hc']
      rw [harm]
      exact ih s

/-- The A2DP loop only issues profile-set attempts. -/
theorem a2dpLoop_profOnly (env : Env) (cn : String) :
    ∀ (l : List String) (s : St), ProfOnly s (a2dpLoop env cn l s).2 := by
  intro l
  induction l with
  | nil => intro s; exact ProfOnly.rfl _
  | cons p rest ih =>
    intro s
    by_cases hc : (env.profiles.isEmpty || env.profiles.any (· == p)) = true
    · by_cases hs : env.setOk p = true
      · have hr : (try_set env p s).1 = true := hs
        have harm : (a2dpLoop env cn (p :: rest) s).2 = (try_set env p s).2 := by
          simp [a2dpLoop, hc, hr]
        rw [harm]; exact ProfOnly.of_try_set ..
      · have hr : (try_set env p s).1 = false := Bool.not_eq_true _ ▸ hs
        have harm : a2dpLoop env cn (p :: rest) s = a2dpLoop env cn rest (try_set env p s).2 := by
          simp [a2dpLoop, hc, hr]
        rw [harm]
        exact ProfOnly.trans (ProfOnly.of_try_set env p s) (ih (try_set env p s).2)
    · have hc' : (env.profiles.isEmpty || env.profiles.any (· == p)) = false :=
        Bool.not_eq_true _ ▸ hc
      have harm : a2dpLoop env cn (p :: rest) s = a2dpLoop env cn rest s := by
        simp [a2dpLoop, hc']
      rw [harm]; exact ih s

-- ── Helper lemmas: activation ─────────────────────────────────────────────

/-- Any session returned by a successful activation has this shape: the
requested card name, and either the gateway codec with no loopback handles,
or a non-gateway codec with both loopback handles present. -/
theorem activate_ok_shape (env : Env) (cn : String) (s : St) (sess : HfpSession)
    (h : (activate_hfp env cn s).1 = Except.ok sess) :
    sess.card_name = cn ∧
    ((sess.codec = HfpCodec.PhoneGateway ∧ sess.inner = none) ∨
     (sess.codec ≠ HfpCodec.PhoneGateway ∧
       sess.inner = some { mic_loopback := some (), speaker_loopback := some () })) := by
  unfold activate_hfp at h
  dsimp only at h
  rcases hsw : switch_to_hfp env cn (disable_wp_autoswitch s) with ⟨r, s1⟩
  rw [hsw] at h
  cases r with
  | error e => simp at h
  | ok codec =>
    dsimp only at h
    by_cases hgw : codec = HfpCodec.PhoneGateway
    · rw [if_pos hgw] at h
      cases h
      exact ⟨rfl, Or.inl ⟨hgw, rfl⟩⟩
    · rw [if_neg hgw] at h
      by_cases hn : (wait_for env.nodesReadyAt 4000).isOk = true
      · rw [if_pos hn] at h
        cases hm : env.spawnMicErr with
        | some e => rw [hm] at h; simp at h
        | none =>
          rw [hm] at h
          cases hsp : env.spawnSpeakerErr with
          | some e => rw [hsp] at h; simp at h
          | none =>
            rw [hsp] at h
            cases h
            exact ⟨rfl, Or.inr ⟨hgw, rfl⟩⟩
      · rw [if_neg hn] at h
        simp at h

-- ── Helper lemmas: string round-trip ──────────────────────────────────────

theorem trimAux_of_not_prefixed (pat x : List Char)
    (h : pat.isPrefixOf x = false) : ∀ fuel, trimAux pat fuel x = x := by
  intro fuel
  cases fuel with
  | zero => rfl
  | succ n => simp [trimAux, h]

theorem trimAux_strip_once (pat x : List Char) (hne : pat ≠ [])
    (h : pat.isPrefixOf x = false) :
    ∀ fuel, 1 ≤ fuel → trimAux pat fuel (pat ++ x) = x := by
  intro fuel hfuel
  cases fuel with
  | zero => omega
  | succ n =>
    have hpre : pat.isPrefixOf (pat ++ x) = true :=
      List.isPrefixOf_iff_prefix.mpr (List.prefix_append pat x)
    simp only [trimAux, hpre, Bool.not_eq_eq_eq_not, List.isEmpty_eq_false_iff_exists_mem]
    rw [if_pos (by simp [hpre, List.isEmpty_iff, hne])]
    rw [List.drop_left]
    exact trimAux_of_not_prefixed pat x h n

theorem map_colon_underscore_cancel (l : List Char) (h : '_' ∉ l) :
    (l.map fun c => if c = ':' then '_' else c).map
        (fun c => if c = '_' then ':' else c) = l := by
  induction l with
  | nil => rfl
  | cons c cs ih =>
    have hc : c ≠ '_' := fun hc => h (hc ▸ List.mem_cons_self c cs)
    have hcs : '_' ∉ cs := fun hm => h (List.mem_cons_of_mem c hm)
    by_cases hcolon : c = ':'
    · subst hcolon; simp [ih hcs]
    · simp [hcolon, hc, ih hcs]

-- ── Claim-level environments ──────────────────────────────────────────────

/-- A PulseAudio-family headset card (no `-cvsd` profile) on which the
wideband set succeeds, nodes appear immediately, the mic loopback spawns,
but the speaker loopback fails to spawn. -/
def envSpeakerFail : Env :=
  { profiles := ["headset-head-unit", "a2dp-sink"],
    setOk := fun p => p == "headset-head-unit-msbc" || p == "a2dp-sink",
    spawnMicErr := none, spawnSpeakerErr := some "boom",
    nodesReadyAt := fun _ => true, runningAt := fun _ => true }

/-- A card on which the profile switch succeeds but the HFP voice nodes
never appear: the fatal node wait times out. -/
def envNodeTimeout : Env :=
  { profiles := ["headset-head-unit"], setOk := fun _ => true,
    spawnMicErr := none, spawnSpeakerErr := none,
    nodesReadyAt := fun _ => false, runningAt := fun _ => true }

/-- A phone card advertising only the `audio-gateway` profile. -/
def envGateway : Env :=
  { profiles := ["audio-gateway"], setOk := fun p => p == "audio-gateway",
    spawnMicErr := none, spawnSpeakerErr := none,
    nodesReadyAt := fun _ => true, runningAt := fun _ => true }

/-- A PulseAudio-family headset (wideband settable, `a2dp-sink` settable)
where both loopbacks spawn but the running-state wait times out. -/
def envRunTimeout : Env :=
  { profiles := ["headset-head-unit", "a2dp-sink"],
    setOk := fun p => p == "headset-head-unit-msbc" || p == "a2dp-sink",
    spawnMicErr := none, spawnSpeakerErr := none,
    nodesReadyAt := fun _ => true, runningAt := fun _ => false }

/-- The PulseAudio-family scenario card of the spec's §8 test:
profiles `{headset-head-unit, a2dp-sink}` with a parameterised set oracle. -/
def envPulse (setOk : String → Bool) : Env :=
  { profiles := ["headset-head-unit", "a2dp-sink"], setOk := setOk,
    spawnMicErr := none, spawnSpeakerErr := none,
    nodesReadyAt := fun _ => true, runningAt := fun _ => true }

def cardX : String := "bluez_card.AA_BB_CC_DD_EE_FF"

-- ── C1 ────────────────────────────────────────────────────────────────────

/-- C1: the claim says that when the speaker bridge fails to spawn, the
already-started mic bridge is killed before the error is returned.  The code
does return an error naming the speaker loopback, but it never kills the mic
loopback: the `?` operator drops the `Child` handle without killing the
process, which stays alive (`micAlive = true`, and no `killMic` effect is in
the trace).  The spec's "no leaked processes on partial failure" is the
clear intent; the code leaks the process. -/
theorem speaker_spawn_failure_leaks_mic_bridge :
    (activate_hfp envSpeakerFail cardX st0).1
      = Except.error "Failed to start speaker-loopback: boom"
  ∧ (activate_hfp envSpeakerFail cardX st0).2.world.micAlive = true
  ∧ Effect.killMic ∉ (activate_hfp envSpeakerFail cardX st0).2.trace
  ∧ Effect.enableAutoswitch ∉ (activate_hfp envSpeakerFail cardX st0).2.trace := by
  decide

-- ── C2 ────────────────────────────────────────────────────────────────────

/-- C2: the claim says every pre-voice-channel activation failure resumes
the autoswitch policy guard before surfacing the error.  On the fatal
node-appearance timeout the code returns the error via `?` without calling
`enable_wp_autoswitch`: the guard was suspended (`disableAutoswitch` is in
the trace) and never resumed (`autoswitchEnabled` is still `false`, no
`enableAutoswitch` effect).  Only the profile-switch failure arm re-enables
it. -/
theorem node_timeout_failure_leaves_autoswitch_disabled :
    (activate_hfp envNodeTimeout cardX st0).1
      = Except.error (nodesTimeoutError "bluez_input.AA:BB:CC:DD:EE:FF"
          "bluez_output.AA:BB:CC:DD:EE:FF")
  ∧ (activate_hfp envNodeTimeout cardX st0).2.world.autoswitchEnabled = false
  ∧ Effect.disableAutoswitch ∈ (activate_hfp envNodeTimeout cardX st0).2.trace
  ∧ Effect.enableAutoswitch ∉ (activate_hfp envNodeTimeout cardX st0).2.trace := by
  decide

-- ── C10 ───────────────────────────────────────────────────────────────────

/-- C10 counterexample: `"bluez:card.x"` contains no underscore, yet the
conversion round-trip is not the identity — `mac_to_card_name` produces
`bluez_card.bluez_card.x`, and `card_name_to_mac`'s `trim_start_matches`
strips the prefix *repeatedly*, collapsing it to `"x"`. -/
theorem mac_round_trip_counterexample :
    '_' ∉ "bluez:card.x".data
  ∧ card_name_to_mac (mac_to_card_name "bluez:card.x") = "x"
  ∧ card_name_to_mac (mac_to_card_name "bluez:card.x") ≠ "bluez:card.x" := by
  decide

/-- C10 (amended): for every string with no underscore whose colon→underscore
image does not itself begin with `bluez_card.`, the round-trip is the
identity; every colon-separated MAC address satisfies both conditions. -/
theorem mac_round_trip_of_no_underscore (m : String)
    (h1 : '_' ∉ m.data)
    (h2 : "bluez_card.".data.isPrefixOf (replaceChar ':' '_' m).data = false) :
    card_name_to_mac (mac_to_card_name m) = m := by
  unfold card_name_to_mac mac_to_card_name trimStartAll
  have hdata : ("bluez_card." ++ replaceChar ':' '_' m).data
      = "bluez_card.".data ++ (replaceChar ':' '_' m).data := by
    simp [String.data_append]
  rw [hdata]
  have hfuel : 1 ≤ ("bluez_card.".data ++ (replaceChar ':' '_' m).data).length := by
    simp
  rw [trimAux_strip_once _ _ (by decide) h2 _ hfuel]
  show replaceChar '_' ':' (String.mk (replaceChar ':' '_' m).data) = m
  unfold replaceChar
  simp only [map_colon_underscore_cancel m.data h1]

/-- C10 witness: a colon-separated MAC round-trips exactly. -/
theorem mac_round_trip_witness :
    '_' ∉ "AA:BB:CC:DD:EE:FF".data
  ∧ card_name_to_mac (mac_to_card_name "AA:BB:CC:DD:EE:FF") = "AA:BB:CC:DD:EE:FF" :=
  ⟨by decide, mac_round_trip_of_no_underscore "AA:BB:CC:DD:EE:FF" (by decide) (by decide)⟩

-- ── C7 ────────────────────────────────────────────────────────────────────

/-- C7: the polling wait is total, returns success at the first 200 ms-grid
check that observes the predicate true, and with a never-true predicate
returns a timeout no earlier than the 4 s deadline used at both call sites
and no later than the deadline plus one polling interval. -/
theorem wait_for_poll_bounds (cond : Nat → Bool) :
    (∀ u, wait_for cond 4000 = .ok u →
        cond u = true ∧ u % 200 = 0 ∧ ∀ t, t < u → t % 200 = 0 → cond t = false)
  ∧ ((∀ t, cond t = false) →
        ∃ u, wait_for cond 4000 = .timedOut u ∧ 4000 ≤ u ∧ u ≤ 4000 + 200) := by
  constructor
  · intro u h
    obtain ⟨h1, _, h3, h4⟩ := waitForAux_ok cond 4000 (4000 / 200 + 2) 0 u h
    refine ⟨h1, by simpa using h3, fun t ht hmod => h4 t (Nat.zero_le _) ht (by simpa using hmod)⟩
  · intro hnever
    obtain ⟨u, hu, hlo, hhi⟩ :=
      waitForAux_timedOut cond 4000 hnever (4000 / 200 + 2) 0 (by omega) (by omega)
    exact ⟨u, hu, hlo, by omega⟩

/-- C7 witness: a predicate first true at 600 ms is accepted at the 600 ms
check (and was false at the earlier checks), and a never-true predicate
times out within [4000 ms, 4200 ms]. -/
theorem wait_for_poll_bounds_witness :
    ((fun t => decide (600 ≤ t)) 600 = true
      ∧ (fun t => decide (600 ≤ t)) 400 = false)
  ∧ (∃ u, wait_for (fun _ => false) 4000 = .timedOut u ∧ 4000 ≤ u ∧ u ≤ 4000 + 200) := by
  constructor
  · have h := (wait_for_poll_bounds (fun t => decide (600 ≤ t))).1 600 (by decide)
    exact ⟨h.1, h.2.2 400 (by decide) (by decide)⟩
  · exact (wait_for_poll_bounds (fun _ => false)).2 (fun _ => rfl)

-- ── C4 ────────────────────────────────────────────────────────────────────

/-- C4: on a card advertising `{headset-head-unit, a2dp-sink}` (no `-cvsd`
variant, hence the PulseAudio naming family), the telephony switch attempts
`headset-head-unit-msbc` first and `headset-head-unit` second; when the
first set fails and the second succeeds it returns the narrowband codec. -/
theorem pulseaudio_family_narrowband_fallback (setOk : String → Bool) (cn : String) (s : St)
    (h1 : setOk "headset-head-unit-msbc" = false)
    (h2 : setOk "headset-head-unit" = true) :
    (switch_to_hfp (envPulse setOk) cn s).1 = Except.ok HfpCodec.Cvsd
  ∧ (switch_to_hfp (envPulse setOk) cn s).2.trace
      = s.trace ++ [Effect.setProfile "headset-head-unit-msbc" false,
                    Effect.setProfile "headset-head-unit" true] := by
  have hcv : (["headset-head-unit", "a2dp-sink"].any fun x => x == "headset-head-unit-cvsd")
      = false := by decide
  have hh : (["headset-head-unit", "a2dp-sink"].any (strStartsWith "headset-head-unit"))
      = true := by decide
  constructor <;>
    simp [switch_to_hfp, envPulse, hcv, hh, hfp_wide_name, hfp_narrow_name,
      try_set, emit, h1, h2]

/-- C4 witness: with a set oracle accepting exactly `headset-head-unit`,
the switch returns `Cvsd` after attempting msbc then plain headset. -/
theorem pulseaudio_family_narrowband_fallback_witness :
    (switch_to_hfp (envPulse (fun p => p == "headset-head-unit")) cardX st0).1
      = Except.ok HfpCodec.Cvsd
  ∧ (switch_to_hfp (envPulse (fun p => p == "headset-head-unit")) cardX st0).2.trace
      = st0.trace ++ [Effect.setProfile "headset-head-unit-msbc" false,
                      Effect.setProfile "headset-head-unit" true] :=
  pulseaudio_family_narrowband_fallback (fun p => p == "headset-head-unit") cardX st0
    (by decide) (by decide)

-- ── C5 ────────────────────────────────────────────────────────────────────

/-- C5: the music switch attempts its priority list in order and succeeds
exactly on the first candidate that is permitted (profile list empty, or the
candidate advertised) *and* settable, which then becomes the active profile;
with no such candidate it fails with the no-music-profile error. -/
theorem switch_to_a2dp_first_settable_candidate (env : Env) (cn : String) (s : St) :
    match a2dpCandidates.find? (a2dpGood env) with
    | some p =>
      p ∈ a2dpCandidates
      ∧ (switch_to_a2dp env cn s).1 = Except.ok ()
      ∧ (switch_to_a2dp env cn s).2.world.activeProfile = some p
    | none => (switch_to_a2dp env cn s).1 = Except.error (noA2dpError cn env.profiles) := by
  have h := a2dpLoop_find_spec env cn a2dpCandidates s
  cases hf : a2dpCandidates.find? (a2dpGood env) with
  | some p =>
    rw [hf] at h
    exact ⟨List.mem_of_find?_eq_some hf, h.1, h.2⟩
  | none =>
    rw [hf] at h
    exact h

-- ── C3 ────────────────────────────────────────────────────────────────────

/-- C3 counterexample: activating a card that advertises only
`audio-gateway` succeeds with the remote-gateway codec and `inner = none`;
releasing that session runs no teardown at all, so the active profile stays
`audio-gateway`, which is not a music profile — the claim's "for every codec
variant" fails on the remote-gateway variant. -/
theorem gateway_session_release_keeps_gateway_profile :
    (activate_hfp envGateway cardX st0).1
      = Except.ok { card_name := cardX, codec := HfpCodec.PhoneGateway, inner := none }
  ∧ (release envGateway
        { card_name := cardX, codec := HfpCodec.PhoneGateway, inner := none }
        (activate_hfp envGateway cardX st0).2).2.world.activeProfile
      = some "audio-gateway"
  ∧ "audio-gateway" ∉ a2dpCandidates := by
  decide

/-- C3 (amended): for sessions with a wideband or narrowband codec —
the ones holding bridge handles — release attempts the music restore, and
whenever some music candidate is permitted and settable the endpoint's
active profile ends up a music profile, regardless of the running-state
wait's outcome; a remote-gateway session's release does not touch the
profile. -/
theorem release_restores_music_profile_for_bridge_codecs
    (env : Env) (cn : String) (s : St) (sess : HfpSession)
    (hok : (activate_hfp env cn s).1 = Except.ok sess)
    (hng : sess.codec ≠ HfpCodec.PhoneGateway)
    (hmusic : ∃ p ∈ a2dpCandidates, a2dpGood env p = true) :
    ∃ q ∈ a2dpCandidates,
      (release env sess (activate_hfp env cn s).2).2.world.activeProfile = some q := by
  obtain ⟨-, hshape⟩ := activate_ok_shape env cn s sess hok
  rcases hshape with ⟨hgw, -⟩ | ⟨-, hinner⟩
  · exact absurd hgw hng
  · obtain ⟨p, hp, hgood⟩ := hmusic
    obtain ⟨q, hq⟩ := Option.isSome_iff_exists.mp
      (List.find?_isSome.mpr ⟨p, hp, hgood⟩)
    refine ⟨q, List.mem_of_find?_eq_some hq, ?_⟩
    rw [release, hinner]
    simp only [teardown, kill_child_mic, kill_child_speaker]
    have h := a2dpLoop_find_spec env sess.card_name a2dpCandidates
      (emit (Effect.sleepMs 200)
        (emit Effect.killSpeaker
          { world :=
              { (emit Effect.killMic
                  { (activate_hfp env cn s).2 with
                    world := { (activate_hfp env cn s).2.world with micAlive := false } }).world
                with speakerAlive := false },
            trace :=
              (emit Effect.killMic
                { (activate_hfp env cn s).2 with
                  world := { (activate_hfp env cn s).2.world with micAlive := false } }).trace }))
    rw [hq] at h
    simpa [enable_wp_autoswitch, emit] using h.2

/-- C3 witness: a wideband session whose running-state wait timed out still
gets its profile restored to `a2dp-sink` on release. -/
theorem release_restores_music_profile_witness :
    ∃ q ∈ a2dpCandidates,
      (release envRunTimeout
          { card_name := cardX, codec := HfpCodec.MSbc,
            inner := some { mic_loopback := some (), speaker_loopback := some () } }
          (activate_hfp envRunTimeout cardX st0).2).2.world.activeProfile = some q :=
  release_restores_music_profile_for_bridge_codecs envRunTimeout cardX st0
    { card_name := cardX, codec := HfpCodec.MSbc,
      inner := some { mic_loopback := some (), speaker_loopback := some () } }
    (by decide) (by decide) ⟨"a2dp-sink", by decide, by decide⟩

-- ── C6 ────────────────────────────────────────────────────────────────────

/-- Teardown on a session holding both bridge handles performs, in order:
kill mic, kill speaker, the 200 ms settle sleep, the best-effort music
restore (some sequence of profile-set attempts), and the autoswitch
resume. -/
theorem teardown_trace (env : Env) (i : HfpSessionInner) (cn : String) (s : St)
    (hm : i.mic_loopback = some ()) (hsp : i.speaker_loopback = some ()) :
    ∃ ts, (∀ e ∈ ts, ∃ p ok, e = Effect.setProfile p ok)
      ∧ (teardown env i cn s).trace
          = s.trace ++ ([Effect.killMic, Effect.killSpeaker, Effect.sleepMs 200]
              ++ ts ++ [Effect.enableAutoswitch]) := by
  have key : ∀ (C : St), ∃ d, (∀ e ∈ d, ∃ p ok, e = Effect.setProfile p ok) ∧
      (enable_wp_autoswitch (switch_to_a2dp env cn C).2).trace
        = C.trace ++ d ++ [Effect.enableAutoswitch] := by
    intro C
    obtain ⟨⟨d, hd, hall⟩, -, -, -⟩ := a2dpLoop_profOnly env cn a2dpCandidates C
    exact ⟨d, hall, by simp [switch_to_a2dp, enable_wp_autoswitch, emit, hd]⟩
  rw [teardown, hm, hsp]
  simp only [kill_child_mic, kill_child_speaker]
  obtain ⟨d, hall, htr⟩ := key _
  rw [htr]
  exact ⟨d, hall, by simp [emit]⟩

/-- C6 counterexample: a remote-gateway session's release performs *none*
of the claimed steps — the trace is unchanged, and in particular no 200 ms
settle delay was ever performed — refuting "release always performs its
steps in this order". -/
theorem gateway_session_release_performs_no_steps :
    (activate_hfp envGateway cardX st0).1
      = Except.ok { card_name := cardX, codec := HfpCodec.PhoneGateway, inner := none }
  ∧ (release envGateway
        { card_name := cardX, codec := HfpCodec.PhoneGateway, inner := none }
        (activate_hfp envGateway cardX st0).2).2.trace
      = (activate_hfp envGateway cardX st0).2.trace
  ∧ Effect.sleepMs 200 ∉ (activate_hfp envGateway cardX st0).2.trace := by
  decide

/-- C6 (amended): release on a session *holding bridge handles* performs,
in order, the bridge kills, the fixed 200 ms settle delay, the best-effort
music-profile switch (attempt effects only — its failure is never raised,
as `release` is total and returns no error), and the autoswitch resume, and
clears the handles; release on a session without bridge handles (a
remote-gateway session, or one already released) performs no external calls;
release is idempotent. -/
theorem release_step_order_and_idempotence (env : Env) :
    (∀ (cn : String) (codec : HfpCodec) (s : St),
       ∃ ts, (∀ e ∈ ts, ∃ p ok, e = Effect.setProfile p ok)
         ∧ (release env
              { card_name := cn, codec := codec,
                inner := some { mic_loopback := some (), speaker_loopback := some () } }
              s).2.trace
             = s.trace ++ ([Effect.killMic, Effect.killSpeaker, Effect.sleepMs 200]
                 ++ ts ++ [Effect.enableAutoswitch])
         ∧ (release env
              { card_name := cn, codec := codec,
                inner := some { mic_loopback := some (), speaker_loopback := some () } }
              s).1
             = { card_name := cn, codec := codec, inner := none })
  ∧ (∀ (sess : HfpSession) (s : St), sess.inner = none → release env sess s = (sess, s))
  ∧ (∀ (sess : HfpSession) (s s' : St),
       release env (release env sess s).1 s' = ((release env sess s).1, s')) := by
  refine ⟨?_, ?_, ?_⟩
  · intro cn codec s
    obtain ⟨ts, hall, htr⟩ :=
      teardown_trace env { mic_loopback := some (), speaker_loopback := some () } cn s rfl rfl
    exact ⟨ts, hall, by simpa [release] using htr, by simp [release]⟩
  · intro sess s hnone
    rw [release, hnone]
  · intro sess s s'
    cases hi : sess.inner with
    | none => simp [release, hi]
    | some i => simp [release, hi]

/-- C6 witness: a session with no bridge handles releases as a no-op. -/
theorem release_step_order_witness :
    release envRunTimeout
        { card_name := cardX, codec := HfpCodec.PhoneGateway, inner := none } st0
      = ({ card_name := cardX, codec := HfpCodec.PhoneGateway, inner := none }, st0) :=
  (release_step_order_and_idempotence envRunTimeout).2.1
    { card_name := cardX, codec := HfpCodec.PhoneGateway, inner := none } st0 rfl

-- ── C8 ────────────────────────────────────────────────────────────────────

/-- C8: when the profile switch yields the remote-gateway codec, activation
returns a session with that codec and no bridge handles, leaves both bridge
processes unstarted, performs neither of the two node waits, and the very
last effect before the session is returned is the autoswitch resume. -/
theorem gateway_activation_skips_bridges_resumes_guard
    (env : Env) (cn : String) (s : St)
    (hgw : (switch_to_hfp env cn (disable_wp_autoswitch s)).1
        = Except.ok HfpCodec.PhoneGateway) :
    (activate_hfp env cn s).1
      = Except.ok { card_name := cn, codec := HfpCodec.PhoneGateway, inner := none }
  ∧ (activate_hfp env cn s).2.world.autoswitchEnabled = true
  ∧ (activate_hfp env cn s).2.world.micAlive = s.world.micAlive
  ∧ (activate_hfp env cn s).2.world.speakerAlive = s.world.speakerAlive
  ∧ ∃ d, (activate_hfp env cn s).2.trace = s.trace ++ d
      ∧ d.getLast? = some Effect.enableAutoswitch
      ∧ ∀ ok, Effect.spawnMic ok ∉ d ∧ Effect.spawnSpeaker ok ∉ d
            ∧ Effect.waitNodes ok ∉ d ∧ Effect.waitRunning ok ∉ d := by
  obtain ⟨⟨d1, hd1, hall1⟩, hauto, hmic, hspk⟩ :=
    switch_to_hfp_profOnly env cn (disable_wp_autoswitch s)
  rcases hsw : switch_to_hfp env cn (disable_wp_autoswitch s) with ⟨r, s1⟩
  rw [hsw] at hgw hd1 hauto hmic hspk
  subst hgw
  have hact : activate_hfp env cn s
      = (Except.ok { card_name := cn, codec := HfpCodec.PhoneGateway, inner := none },
         enable_wp_autoswitch s1) := by
    unfold activate_hfp
    dsimp only
    rw [hsw]
    rfl
  rw [hact]
  have hmemd : ∀ e, e ∈ Effect.disableAutoswitch :: (d1 ++ [Effect.enableAutoswitch]) →
      e = Effect.disableAutoswitch ∨ e = Effect.enableAutoswitch ∨
        ∃ p ok, e = Effect.setProfile p ok := by
    intro e he
    rcases List.mem_cons.mp he with he | he
    · exact Or.inl he
    · rcases List.mem_append.mp he with he | he
      · exact Or.inr (Or.inr (hall1 e he))
      · exact Or.inr (Or.inl (List.mem_singleton.mp he))
  refine ⟨rfl, by simp [enable_wp_autoswitch, emit], ?_, ?_, ?_⟩
  · rw [show (enable_wp_autoswitch s1).world.micAlive = s1.world.micAlive from by
      simp [enable_wp_autoswitch, emit]]
    rw [hmic]; simp [disable_wp_autoswitch, emit]
  · rw [show (enable_wp_autoswitch s1).world.speakerAlive = s1.world.speakerAlive from by
      simp [enable_wp_autoswitch, emit]]
    rw [hspk]; simp [disable_wp_autoswitch, emit]
  · refine ⟨Effect.disableAutoswitch :: (d1 ++ [Effect.enableAutoswitch]), ?_, ?_, ?_⟩
    · have : (enable_wp_autoswitch s1).trace = s1.trace ++ [Effect.enableAutoswitch] := by
        simp [enable_wp_autoswitch, emit]
      rw [this, hd1]
      simp [disable_wp_autoswitch, emit]
    · rw [show Effect.disableAutoswitch :: (d1 ++ [Effect.enableAutoswitch])
          = (Effect.disableAutoswitch :: d1) ++ [Effect.enableAutoswitch] from by simp]
      exact List.getLast?_concat _
    · intro ok
      refine ⟨?_, ?_, ?_, ?_⟩ <;>
        · intro hmem
          rcases hmemd _ hmem with h | h | ⟨p, ok', h⟩ <;> cases h

-- ── C9 ────────────────────────────────────────────────────────────────────

/-- The bridge-handle pairing invariant: a session's mic handle is present
exactly when its speaker handle is. -/
def bridgesInv (sess : HfpSession) : Prop :=
  (sess.inner.bind fun i => i.mic_loopback).isSome
    = (sess.inner.bind fun i => i.speaker_loopback).isSome

/-- C9: every session produced by a successful activation has its bridge
handles paired — both present for a non-gateway codec, both absent for the
gateway codec — and release (the only session-mutating operation) preserves
the pairing. -/
theorem session_bridge_handles_paired (env : Env) (cn : String) (s : St) (sess : HfpSession)
    (h : (activate_hfp env cn s).1 = Except.ok sess) :
    bridgesInv sess
  ∧ (sess.codec = HfpCodec.PhoneGateway → sess.inner = none)
  ∧ (sess.codec ≠ HfpCodec.PhoneGateway →
       sess.inner = some { mic_loopback := some (), speaker_loopback := some () })
  ∧ ∀ (env' : Env) (s' : St), bridgesInv (release env' sess s').1 := by
  obtain ⟨-, hshape⟩ := activate_ok_shape env cn s sess h
  rcases hshape with ⟨hgw, hinner⟩ | ⟨hgw, hinner⟩
  · refine ⟨by simp [bridgesInv, hinner], fun _ => hinner, fun hn => absurd hgw hn, ?_⟩
    intro env' s'
    simp [release, hinner, bridgesInv]
  · refine ⟨by simp [bridgesInv, hinner], fun hg => absurd hg hgw, fun _ => hinner, ?_⟩
    intro env' s'
    simp [release, hinner, bridgesInv]

/-- C8 witness: the phone card advertising only `audio-gateway`. -/
theorem gateway_activation_skips_bridges_witness :
    (activate_hfp envGateway cardX st0).1
      = Except.ok { card_name := cardX, codec := HfpCodec.PhoneGateway, inner := none }
  ∧ (activate_hfp envGateway cardX st0).2.world.autoswitchEnabled = true
  ∧ (activate_hfp envGateway cardX st0).2.world.micAlive = st0.world.micAlive
  ∧ (activate_hfp envGateway cardX st0).2.world.speakerAlive = st0.world.speakerAlive
  ∧ ∃ d, (activate_hfp envGateway cardX st0).2.trace = st0.trace ++ d
      ∧ d.getLast? = some Effect.enableAutoswitch
      ∧ ∀ ok, Effect.spawnMic ok ∉ d ∧ Effect.spawnSpeaker ok ∉ d
            ∧ Effect.waitNodes ok ∉ d ∧ Effect.waitRunning ok ∉ d :=
  gateway_activation_skips_bridges_resumes_guard envGateway cardX st0 (by decide)

/-- C9 witness: the wideband session produced by activation on
`envRunTimeout` has both handles, and its release preserves the pairing. -/
theorem session_bridge_handles_paired_witness :
    bridgesInv
      { card_name := cardX, codec := HfpCodec.MSbc,
        inner := some { mic_loopback := some (), speaker_loopback := some () } }
  ∧ bridgesInv
      (release envRunTimeout
        { card_name := cardX, codec := HfpCodec.MSbc,
          inner := some { mic_loopback := some (), speaker_loopback := some () } }
        st0).1 :=
  ⟨(session_bridge_handles_paired envRunTimeout cardX st0
      { card_name := cardX, codec := HfpCodec.MSbc,
        inner := some { mic_loopback := some (), speaker_loopback := some () } }
      (by decide)).1,
   (session_bridge_handles_paired envRunTimeout cardX st0
      { card_name := cardX, codec := HfpCodec.MSbc,
        inner := some { mic_loopback := some (), speaker_loopback := some () } }
      (by decide)).2.2.2 envRunTimeout st0⟩

end PhoneConnect
